import Mathlib

/-!
Verification development for the Eufy desktop monitor repository.

The repository contains two Python programs:

* `eufy_desktop_gui.py` — a Tk GUI application whose core is `MonitorLogic`
  (per-device state map `devices`, last-known-good map `device_last_ok`),
  a `Notifier` with a cooldown map, an `IncidentLog` (SQLite sink) and a
  reconnecting `WSClient`.
* `eufy_monitor_ws.py` — a headless monitor whose core is `EufyMonitor`
  (only a `device_last_ok` map), with the same `Notifier`/`IncidentLog`
  and a reconnecting `EufyClient`.

This file gives a shallow embedding of both event-handling cores and of the
transport handshake, and proves or refutes the frozen claims about them.

Modelling conventions:
* Python/JSON values are modelled by `JVal`; Python dicts by insertion-ordered
  association lists; Python truthiness by `pyTruthy`.
* Wall-clock instants are integer timestamps (seconds).  All calls to
  `datetime.datetime.now()` / `time.time()` made during a single handler
  invocation are modelled as the same instant, passed in as `now`.
* Code that may raise (attribute access on non-dicts, a failing persistence
  write) runs in `Except String`; the error string names the Python exception.
* Side effects (GUI-queue messages, notification attempts, incident writes)
  are returned as an ordered `Eff` list.  A notification "fires" at this
  layer when `Notifier.show` is invoked; `Notifier.show` itself (the
  cooldown gate) is modelled separately.
* Python `str()` / `repr()` / `json.dumps` are modelled structurally by
  `pyStr` / `pyRepr` / `jsonDumps` (string escaping inside serialized
  output is not modelled; no claim depends on it).
-/

/-- Untyped Python/JSON values as they occur in the monitor's messages. -/
inductive JVal where
  | jnull
  | jbool (b : Bool)
  | jnum (n : Int)
  | jstr (s : String)
  | jarr (xs : List JVal)
  | jobj (fields : List (String × JVal))

mutual

/-- Structural equality on `JVal` (Python `==` on these value shapes). -/
def JVal.beq : JVal → JVal → Bool
  | .jnull, .jnull => true
  | .jbool a, .jbool b => a == b
  | .jnum a, .jnum b => a == b
  | .jstr a, .jstr b => a == b
  | .jarr xs, .jarr ys => JVal.beqList xs ys
  | .jobj fs, .jobj gs => JVal.beqFields fs gs
  | _, _ => false

/-- Elementwise `JVal.beq` on lists. -/
def JVal.beqList : List JVal → List JVal → Bool
  | [], [] => true
  | x :: xs, y :: ys => JVal.beq x y && JVal.beqList xs ys
  | _, _ => false

/-- Elementwise `JVal.beq` on object fields. -/
def JVal.beqFields : List (String × JVal) → List (String × JVal) → Bool
  | [], [] => true
  | (k, v) :: fs, (l, w) :: gs => k == l && JVal.beq v w && JVal.beqFields fs gs
  | _, _ => false

end

instance : BEq JVal := ⟨JVal.beq⟩

/-- Python truthiness of a value (`bool(v)`): `None`, `False`, `0`, `""`,
`[]` and `{}` are falsy, everything else is truthy. -/
def pyTruthy : JVal → Bool
  | .jnull => false
  | .jbool b => b
  | .jnum n => n != 0
  | .jstr s => s != ""
  | .jarr xs => !xs.isEmpty
  | .jobj fs => !fs.isEmpty

/-- Python `a or b`: `a` when truthy, otherwise `b`. -/
def pyOr (a b : JVal) : JVal :=
  if pyTruthy a then a else b

/-- Python `v in (k₁, k₂, …)` where every `kᵢ` is a string literal. -/
def pyIn (v : JVal) (ks : List String) : Bool :=
  ks.any fun k => v == JVal.jstr k

/-- Python `d.get(k)`: `None` for an absent key; `AttributeError` when the
receiver is not a dict. -/
def JVal.pyGet : JVal → String → Except String JVal
  | .jobj fs, k => .ok ((fs.lookup k).getD .jnull)
  | _, _ => .error "AttributeError"

/-- Python `d.get(k, dflt)`. -/
def JVal.pyGetD : JVal → String → JVal → Except String JVal
  | .jobj fs, k, dflt => .ok ((fs.lookup k).getD dflt)
  | _, _, _ => .error "AttributeError"

/-- ASCII lowercasing of one character (`str.lower()` on the ASCII range;
every recognized message type is ASCII). -/
def asciiLowerChar (c : Char) : Char :=
  if 65 ≤ c.toNat ∧ c.toNat ≤ 90 then Char.ofNat (c.toNat + 32) else c

/-- ASCII lowercasing of a string. -/
def asciiLower (s : String) : String :=
  String.mk (s.data.map asciiLowerChar)

/-- Python `v.lower()`: defined on strings only. -/
def pyLower : JVal → Except String JVal
  | .jstr s => .ok (.jstr (asciiLower s))
  | _ => .error "AttributeError"

/-- Python iteration `for d in v`: lists yield elements, strings yield
characters, dicts yield their keys, other values raise `TypeError`. -/
def pyIter : JVal → Except String (List JVal)
  | .jarr xs => .ok xs
  | .jstr s => .ok (s.toList.map fun c => .jstr (String.singleton c))
  | .jobj fs => .ok (fs.map fun kv => .jstr kv.1)
  | _ => .error "TypeError"

mutual

/-- Python `repr(v)` on these value shapes (escaping inside strings is not
modelled). -/
def pyRepr : JVal → String
  | .jnull => "None"
  | .jbool b => if b then "True" else "False"
  | .jnum n => toString n
  | .jstr s => "\x27" ++ s ++ "\x27"
  | .jarr xs => "[" ++ String.intercalate ", " (pyReprList xs) ++ "]"
  | .jobj fs => "\x7b" ++ String.intercalate ", " (pyReprFields fs) ++ "\x7d"

/-- Elementwise `pyRepr` of list elements. -/
def pyReprList : List JVal → List String
  | [] => []
  | x :: xs => pyRepr x :: pyReprList xs

/-- Fieldwise `pyRepr` of dict entries. -/
def pyReprFields : List (String × JVal) → List String
  | [] => []
  | (k, v) :: fs => ("\x27" ++ k ++ "\x27: " ++ pyRepr v) :: pyReprFields fs

end

/-- Python `str(v)`: identity on strings, `repr` on containers, literal
names for `None`/`True`/`False`, decimal for numbers. -/
def pyStr : JVal → String
  | .jstr s => s
  | v => pyRepr v

mutual

/-- Python `json.dumps(v)` with default separators (string escaping is not
modelled). -/
def jsonDumps : JVal → String
  | .jnull => "null"
  | .jbool b => if b then "true" else "false"
  | .jnum n => toString n
  | .jstr s => "\"" ++ s ++ "\""
  | .jarr xs => "[" ++ String.intercalate ", " (jsonDumpsList xs) ++ "]"
  | .jobj fs => "\x7b" ++ String.intercalate ", " (jsonDumpsFields fs) ++ "\x7d"

/-- Elementwise `jsonDumps` of list elements. -/
def jsonDumpsList : List JVal → List String
  | [] => []
  | x :: xs => jsonDumps x :: jsonDumpsList xs

/-- Fieldwise `jsonDumps` of dict entries. -/
def jsonDumpsFields : List (String × JVal) → List String
  | [] => []
  | (k, v) :: fs => ("\"" ++ k ++ "\": " ++ jsonDumps v) :: jsonDumpsFields fs

end

/-- Lookup in an insertion-ordered dict (first matching key). -/
def alGet {α β : Type} [BEq α] : List (α × β) → α → Option β
  | [], _ => none
  | (k, v) :: rest, key => if k == key then some v else alGet rest key

/-- Python dict assignment `d[key] = v`: overwrite in place when the key is
present, append otherwise. -/
def alSet {α β : Type} [BEq α] : List (α × β) → α → β → List (α × β)
  | [], key, v => [(key, v)]
  | (k, w) :: rest, key, v =>
    if k == key then (k, v) :: rest else (k, w) :: alSet rest key v

theorem alGet_alSet_self {α β : Type} [BEq α] (l : List (α × β)) (k : α) (v : β)
    (hk : (k == k) = true) : alGet (alSet l k v) k = some v := by
  induction l with
  | nil => simp [alSet, alGet, hk]
  | cons hd tl ih =>
    obtain ⟨a, w⟩ := hd
    by_cases h : (a == k) = true
    · simp [alSet, alGet, h]
    · simp only [alSet, alGet, h, Bool.false_eq_true, if_false, ih]

theorem alGet_alSet_ne {α β : Type} [BEq α] (l : List (α × β)) (k k' : α) (v : β)
    (hk : (k == k) = true) (h : ∀ a, (a == k) = true → (a == k') = false) :
    alGet (alSet l k v) k' = alGet l k' := by
  induction l with
  | nil => simp [alSet, alGet, h k hk]
  | cons hd tl ih =>
    obtain ⟨a, w⟩ := hd
    by_cases ha : (a == k) = true
    · simp [alSet, alGet, ha, h a ha]
    · simp [alSet, alGet, ha, ih]

theorem jstr_beq_eq (a b : String) :
    (JVal.jstr a == JVal.jstr b) = (a == b) := rfl

theorem beq_jstr_iff (x : JVal) (s : String) :
    (x == JVal.jstr s) = true ↔ x = JVal.jstr s := by
  cases x <;> simp only [BEq.beq, JVal.beq] <;> simp [beq_iff_eq]

/-- Notifier state: the cooldown window and the per-key last-fired map.
Embeds `Notifier.__init__` from both source files. -/
structure Notifier where
  cooldown : Int
  last : List (String × Int)

/-- Embeds `Notifier.show` (identical logic in both source files): suppress
when the key is truthy, already recorded, and strictly inside the cooldown
window; otherwise record the time under a truthy key and fire.  Returns
whether the notification fired together with the updated state. -/
def Notifier.show (nt : Notifier) (t : Int) (key : Option String) :
    Bool × Notifier :=
  let kt : Option String := match key with
    | some k => if k = "" then none else some k
    | none => none
  match kt with
  | some k =>
    match alGet nt.last k with
    | some lastT =>
      if t - lastT < nt.cooldown then (false, nt)
      else (true, { nt with last := alSet nt.last k t })
    | none => (true, { nt with last := alSet nt.last k t })
  | none => (true, nt)

/-- Models the `plyer` desktop-notification call, which may fail. -/
def notifyDeliver (deliveryFails : Bool) : Except String Unit :=
  if deliveryFails then .error "NotificationError" else .ok ()

/-- Embeds `Notifier.show` together with its `try`/`except` around
`notification.notify`: a delivery failure is swallowed (`pass` in the GUI
variant, a console print in the headless variant), so the call always
returns normally with the same result as `Notifier.show`. -/
def Notifier.showDelivering (nt : Notifier) (t : Int) (key : Option String)
    (deliveryFails : Bool) : Except String (Bool × Notifier) :=
  let r := nt.show t key
  if r.1 then
    match notifyDeliver deliveryFails with
    | .ok () => .ok r
    | .error _ => .ok r
  else
    .ok r

/-- Observable side effects of the event-handling cores, in emission order:
GUI-queue messages (`gui_sink`), notification attempts (`Notifier.show`
invocations, recorded with title, message and dedup key), and incident-log
appends (`IncidentLog.add` invocations). -/
inductive Eff where
  | guiConn (payload : JVal)
  | guiDevice (sn name online lastEvent : JVal)
  | guiLog (now : Int) (line : String)
  | notifyCall (title msg : String) (key : Option String)
  | incidentAdd (source : JVal) (kind : String) (title details : JVal)

/-- Embeds `IncidentLog.add` as seen by the callers: an append that either
succeeds (recorded as an effect) or raises.  Neither source file wraps its
`log.add` calls in a `try`/`except`. -/
def IncidentLog.add (sinkFail : Bool) (source : JVal) (kind : String)
    (title details : JVal) : Except String Eff :=
  if sinkFail then .error "sqlite3.OperationalError"
  else .ok (.incidentAdd source kind title details)

/-- Per-device record of `MonitorLogic.devices` in the GUI program:
`{"name": …, "online": …, "last_event": …}`. -/
structure DevRec where
  name : JVal
  online : JVal
  last_event : JVal

/-- Mutable state of `MonitorLogic` in the GUI program: the device map and
the last-known-good map (`device_last_ok`). -/
structure LogicState where
  devices : List (JVal × DevRec)
  device_last_ok : List (JVal × Int)

/-- Embeds `MonitorLogic._maybe_flag_offline` from `eufy_desktop_gui.py`:
return unless the serial is truthy and has a recorded last-known-good time;
if staleness exceeds the grace period and the stored online field is not
the literal `False`, set it to `False`, push a device update and an incident
log line to the GUI, fire the offline notification and append the incident.
When the serial is absent from `devices`, the source mutates the fresh
default dict `{}` returned by `.get`, so no map entry is written back. -/
def MonitorLogic.maybeFlagOffline (grace : Int) (sinkFail : Bool) (now : Int)
    (st : LogicState) (sn name : JVal) : Except String (LogicState × List Eff) :=
  if !(pyTruthy sn) then .ok (st, [])
  else
    match alGet st.device_last_ok sn with
    | none => .ok (st, [])
    | some lastOk =>
      if now - lastOk > grace then
        let dev? := alGet st.devices sn
        let dev := dev?.getD ⟨.jnull, .jnull, .jnull⟩
        if dev.online == JVal.jbool false then .ok (st, [])
        else
          let dev' := { dev with online := JVal.jbool false }
          let st' := match dev? with
            | some _ => { st with devices := alSet st.devices sn dev' }
            | none => st
          do
            let e ← IncidentLog.add sinkFail name "incident" (.jstr "Device offline") sn
            .ok (st', [ .guiDevice sn name (.jbool false) dev.last_event,
                        .guiLog now ("  [INCIDENT] " ++ pyStr name ++ " offline"),
                        .notifyCall "Eufy: urządzenie offline"
                          (pyStr name ++ " nie odpowiada.") (some ("off_" ++ pyStr sn)),
                        e ])
      else .ok (st, [])

/-- Embeds the `for d in arr` loop of the `devices`/`stations` branch of
`MonitorLogic.handle`: upsert each listed device (replacing the record),
refresh `device_last_ok` when the online hint is truthy, and push a device
update to the GUI.  No notification and no incident is emitted here. -/
def MonitorLogic.snapshotFold (now : Int) (st : LogicState) :
    List JVal → Except String (LogicState × List Eff)
  | [] => .ok (st, [])
  | d :: rest => do
    let sn := pyOr (pyOr (← d.pyGet "serial_number") (← d.pyGet "device_sn"))
      (← d.pyGet "station_sn")
    let name := pyOr (pyOr (pyOr (← d.pyGet "name") (← d.pyGet "device_name"))
      (← d.pyGet "station_name")) sn
    let online := pyIn (← d.pyGet "state") ["online", "connected"]
      || pyTruthy (← d.pyGet "online")
    let st1 : LogicState := { st with devices := alSet st.devices sn ⟨name, .jbool online, .jnull⟩ }
    let st2 : LogicState :=
      if online then { st1 with device_last_ok := alSet st1.device_last_ok sn now } else st1
    let (st3, effs) ← MonitorLogic.snapshotFold now st2 rest
    .ok (st3, .guiDevice sn name (.jbool online) .jnull :: effs)

/-- Embeds `MonitorLogic.handle` from `eufy_desktop_gui.py`.  `grace` is
`cfg["health"]["offline_grace_seconds"]`; `sinkFail` makes every
`IncidentLog.add` call raise; `now` stands for every `datetime.now()` call
of this invocation. -/
def MonitorLogic.handle (grace : Int) (sinkFail : Bool) (now : Int)
    (st : LogicState) (kind : String) (payload : JVal) :
    Except String (LogicState × List Eff) :=
  if kind == "conn" then .ok (st, [.guiConn payload])
  else if kind != "event" then .ok (st, [])
  else do
    let evt := payload
    let t ← pyLower (← evt.pyGetD "type" (.jstr ""))
    if pyIn t ["devices", "stations"] then do
      let arr := pyOr (← evt.pyGet "data") (.jarr [])
      let items ← pyIter arr
      MonitorLogic.snapshotFold now st items
    else if pyIn t ["device", "device update", "property changed"] then do
      let sn := pyOr (pyOr (← evt.pyGet "device_sn") (← evt.pyGet "serial_number"))
        (← evt.pyGet "device_id")
      let name := pyOr (pyOr (← evt.pyGet "device_name") (← evt.pyGet "name")) sn
      let props := pyOr (pyOr (← evt.pyGet "properties") (← evt.pyGet "data")) (.jobj [])
      let pOnline ← props.pyGet "online"
      let pState ← props.pyGet "state"
      let online : JVal := match pOnline with
        | .jbool b => .jbool b
        | _ => .jbool (pyIn pState ["online", "connected"])
      let (st1, effs1) ← (if pyTruthy sn then do
          let dev0 := (alGet st.devices sn).getD ⟨name, .jnull, .jnull⟩
          let dev1 := { dev0 with name := name }
          let (recEffs, dev2, stA) ← (if online != JVal.jnull then do
              let recEffs ← (if pyTruthy online && !(pyTruthy dev1.online) then do
                  let e ← IncidentLog.add sinkFail name "recovery" (.jstr "Device reachable") sn
                  pure [Eff.notifyCall "Eufy: urządzenie wróciło" (pyStr name ++ " online")
                    (some ("rec_" ++ pyStr sn)), e]
                else pure ([] : List Eff))
              let dev2 := { dev1 with online := online }
              let stA := if pyTruthy online then
                  { st with device_last_ok := alSet st.device_last_ok sn now }
                else st
              pure (recEffs, dev2, stA)
            else pure (([] : List Eff), dev1, st))
          let stB := { stA with devices := alSet stA.devices sn dev2 }
          pure (stB, recEffs ++ [Eff.guiDevice sn name dev2.online dev2.last_event])
        else pure (st, ([] : List Eff)))
      let (st2, effs2) ← MonitorLogic.maybeFlagOffline grace sinkFail now st1 sn name
      .ok (st2, effs1 ++ effs2)
    else if pyIn t ["event", "station event", "device event"] then do
      let name := pyOr (pyOr (← evt.pyGet "device_name") (← evt.pyGet "station_name"))
        (.jstr "Eufy")
      let action := pyOr (pyOr (pyOr (← evt.pyGet "event_type") (← evt.pyGet "name"))
        (← evt.pyGet "action")) (.jstr "event")
      let m1 ← evt.pyGet "message"
      let text ← (if pyTruthy m1 then pure m1 else do
          let d ← evt.pyGet "data"
          let m2 ← (pyOr d (.jobj [])).pyGet "message"
          pure (pyOr m2 (.jstr "")))
      let sn := pyOr (← evt.pyGet "device_sn") (pyOr (← evt.pyGet "serial_number") .jnull)
      let (st1, effs1) ← (if pyTruthy sn then do
          let dev0 := (alGet st.devices sn).getD ⟨name, .jbool true, .jnull⟩
          let dev1 := { dev0 with
            last_event := .jstr ((pyStr action ++ ": " ++ pyStr text).take 120) }
          let stA : LogicState := { st with
            devices := alSet st.devices sn dev1,
            device_last_ok := alSet st.device_last_ok sn now }
          pure (stA, [Eff.guiDevice sn dev1.name dev1.online dev1.last_event])
        else pure (st, ([] : List Eff)))
      let e ← IncidentLog.add sinkFail name "alert" action text
      .ok (st1, effs1 ++
        [ .guiLog now ("  [" ++ pyStr name ++ "] " ++ pyStr action ++ " — " ++ pyStr text),
          .notifyCall ("Eufy: " ++ pyStr action) (pyStr name ++ ": " ++ pyStr text)
            (some ("evt_" ++ pyStr name ++ "_" ++ pyStr action)),
          e ])
    else if pyIn t ["error", "station error", "device error"] then do
      let src := pyOr (pyOr (← evt.pyGet "device_name") (← evt.pyGet "station_name"))
        (.jstr "Eufy")
      let m ← evt.pyGet "message"
      let msg := pyOr m (.jstr (pyStr evt))
      let e ← IncidentLog.add sinkFail src "error" (.jstr "Error") msg
      .ok (st, [ .guiLog now ("  [ERROR] " ++ pyStr src ++ ": " ++ pyStr msg),
                 .notifyCall "Eufy: błąd" (pyStr msg) (some ("err_" ++ pyStr src)),
                 e ])
    else
      .ok (st, [])

/-- Mutable state of `EufyMonitor` in the headless program: only the
last-known-good map (there is no per-device state map there). -/
structure EufyMonitorState where
  device_last_ok : List (JVal × Int)

/-- Embeds `EufyMonitor.handle_event` from `eufy_monitor_ws.py`.  The three
type tests are sequential `if`s (not `elif`); the type comparison is
case-sensitive and the serial key may be `None`.  With a falsy online hint,
a missing last-known-good entry defaults to `now` minus 24 hours. -/
def EufyMonitor.handleEvent (grace : Int) (sinkFail : Bool) (now : Int)
    (st : EufyMonitorState) (evt : JVal) :
    Except String (EufyMonitorState × List Eff) := do
  let ty1 ← evt.pyGet "type"
  let effs1 ← (if pyIn ty1 ["event", "station event", "device event"] then do
      let name := pyOr (pyOr (← evt.pyGet "device_name") (← evt.pyGet "station_name"))
        (.jstr "Eufy")
      let action := pyOr (pyOr (pyOr (← evt.pyGet "event_type") (← evt.pyGet "name"))
        (← evt.pyGet "action")) (.jstr "event")
      let m1 ← evt.pyGet "message"
      let text ← (if pyTruthy m1 then pure m1 else do
          let d ← evt.pyGetD "data" (.jobj [])
          let m2 ← d.pyGet "message"
          pure (pyOr m2 (.jstr "")))
      let e ← IncidentLog.add sinkFail name "alert" action text
      pure [Eff.notifyCall ("Eufy: " ++ pyStr action) (pyStr name ++ ": " ++ pyStr text)
        (some ("evt_" ++ pyStr name ++ "_" ++ pyStr action)), e]
    else pure ([] : List Eff))
  let ty2 ← evt.pyGet "type"
  let (st2, effs2) ← (if pyIn ty2 ["device", "device update", "property changed"] then do
      let dev_sn := pyOr (pyOr (← evt.pyGet "device_sn") (← evt.pyGet "serial_number"))
        (← evt.pyGet "device_id")
      let name := pyOr (pyOr (← evt.pyGet "device_name") (← evt.pyGet "name")) dev_sn
      let props := pyOr (pyOr (← evt.pyGet "properties") (← evt.pyGet "data")) (.jobj [])
      let pOnline ← props.pyGet "online"
      let pState ← props.pyGet "state"
      let online : JVal := match pOnline with
        | .jbool b => .jbool b
        | _ => .jbool (pyIn pState ["online", "connected"])
      if pyTruthy online then
        pure ({ st with device_last_ok := alSet st.device_last_ok dev_sn now },
          ([] : List Eff))
      else
        let last_ok := (alGet st.device_last_ok dev_sn).getD (now - 86400)
        if now - last_ok > grace then do
          let e ← IncidentLog.add sinkFail name "incident" (.jstr "Device offline")
            (.jstr (jsonDumps props))
          pure (st, [Eff.notifyCall "Eufy: urządzenie offline"
            (pyStr name ++ " nie odpowiada.") (some ("off_" ++ pyStr dev_sn)), e])
        else pure (st, ([] : List Eff))
    else pure (st, ([] : List Eff)))
  let ty3 ← evt.pyGet "type"
  let effs3 ← (if pyIn ty3 ["error", "station error", "device error"] then do
      let src := pyOr (pyOr (← evt.pyGet "device_name") (← evt.pyGet "station_name"))
        (.jstr "Eufy")
      let m ← evt.pyGet "message"
      let msg := pyOr m (.jstr (pyStr evt))
      let e ← IncidentLog.add sinkFail src "error" (.jstr "Error") msg
      pure [Eff.notifyCall "Eufy: błąd" (pyStr msg) (some ("err_" ++ pyStr src)), e]
    else pure ([] : List Eff))
  .ok (st2, effs1 ++ effs2 ++ effs3)

/-- Observable actions of the stream transport: an outbound send (the JSON
text passed to `ws.send`), a connection-status message put on the GUI
queue, and an inbound event put on the GUI queue. -/
inductive Act where
  | send (payload : String)
  | putConn (payload : JVal)
  | putEvent (evt : JVal)

/-- First handshake command of `WSClient.run` / `EufyClient.run`. -/
def WSClient.cmdInit : JVal := .jobj [("command", .jstr "initialize")]

/-- Second handshake command. -/
def WSClient.cmdGetDevices : JVal := .jobj [("command", .jstr "get_devices")]

/-- Third handshake command. -/
def WSClient.cmdGetStations : JVal := .jobj [("command", .jstr "get_stations")]

/-- Embeds the `async for raw in ws` loop of `WSClient.run`: each raw
message is represented by its `json.loads` outcome (`none` for a parse
failure, which the loop skips with `continue`); every parsed event is put
on the GUI queue. -/
def WSClient.listen : List (Option JVal) → List Act
  | [] => []
  | none :: rest => WSClient.listen rest
  | some evt :: rest => .putEvent evt :: WSClient.listen rest

/-- Embeds the body of the `async with websockets.connect(…)` block of
`WSClient.run` for one successful connection: send the three handshake
commands, report `connected` on the GUI queue, then run the listen loop
over the inbound messages. -/
def WSClient.connectOnce (inbound : List (Option JVal)) : List Act :=
  .send (jsonDumps WSClient.cmdInit) ::
  .send (jsonDumps WSClient.cmdGetDevices) ::
  .send (jsonDumps WSClient.cmdGetStations) ::
  .putConn (.jobj [("status", .jstr "connected")]) ::
  WSClient.listen inbound

/-- Effect list of a handler result (empty when the handler raised). -/
def runEffs {σ : Type} : Except String (σ × List Eff) → List Eff
  | .ok (_, e) => e
  | .error _ => []

/-- Final state of a handler result (the supplied default when it raised). -/
def runState {σ : Type} (dflt : σ) : Except String (σ × List Eff) → σ
  | .ok (s, _) => s
  | .error _ => dflt

/-- Number of `IncidentLog.add` effects with kind `incident` and title
`Device offline` — the offline Incidents of the claims. -/
def countOfflineIncidents (l : List Eff) : Nat :=
  (l.filter fun e => match e with
    | .incidentAdd _ k t _ => k == "incident" && t == JVal.jstr "Device offline"
    | _ => false).length

/-- Number of `IncidentLog.add` effects with kind `recovery`. -/
def countRecoveryIncidents (l : List Eff) : Nat :=
  (l.filter fun e => match e with
    | .incidentAdd _ k _ _ => k == "recovery"
    | _ => false).length

/-- Number of `IncidentLog.add` effects of any kind. -/
def countIncidentAdds (l : List Eff) : Nat :=
  (l.filter fun e => match e with
    | .incidentAdd _ _ _ _ => true
    | _ => false).length

/-- Number of `Notifier.show` invocations carrying the given dedup key. -/
def countNotifyKey (key : String) (l : List Eff) : Nat :=
  (l.filter fun e => match e with
    | .notifyCall _ _ k => k == some key
    | _ => false).length

/-- Number of `Notifier.show` invocations of any kind. -/
def countNotifyCalls (l : List Eff) : Nat :=
  (l.filter fun e => match e with
    | .notifyCall _ _ _ => true
    | _ => false).length

/-- A `device update` message for serial `sn`, device name `name` and the
given `online` property value. -/
def updMsg (sn name : String) (online : JVal) : JVal :=
  .jobj [("type", .jstr "device update"), ("device_sn", .jstr sn),
         ("device_name", .jstr name), ("properties", .jobj [("online", online)])]

theorem except_bind_ok {ε α β : Type} (a : α) (f : α → Except ε β) :
    (Except.ok a : Except ε α) >>= f = f a := rfl

theorem except_ite_bind {ε α β : Type} (c : Prop) [Decidable c] (a b : α)
    (f : α → Except ε β) :
    ((if c then Except.ok a else Except.ok b) : Except ε α) >>= f = f (if c then a else b) := by
  split <;> rfl

theorem jstr_beq_self (s : String) : (JVal.jstr s == JVal.jstr s) = true := by
  simp [jstr_beq_eq]

theorem pyIn_eq_false_of_ne (v : JVal) (ks : List String)
    (h : ∀ k ∈ ks, v ≠ JVal.jstr k) : pyIn v ks = false := by
  simp only [pyIn, List.any_eq_false]
  intro k hk
  simp only [beq_jstr_iff]
  exact h k hk

/-- Characterization of the GUI update branch on a `device update` message
whose online property is `true`: the device record is upserted with online
`True` and the stored last-event, `device_last_ok` is refreshed, a recovery
notification and incident are emitted exactly when the previously stored
online field was falsy, and the staleness check contributes nothing because
the last-known-good entry was just refreshed. -/
theorem MonitorLogic.handle_updTrue (grace now : Int) (hg : 0 ≤ grace)
    (sn name : String) (hsn : sn ≠ "") (hname : name ≠ "") (st : LogicState) :
    MonitorLogic.handle grace false now st "event" (updMsg sn name (.jbool true)) =
      .ok ({ devices := alSet st.devices (.jstr sn)
               ⟨.jstr name, .jbool true,
                 ((alGet st.devices (.jstr sn)).getD ⟨.jstr name, .jnull, .jnull⟩).last_event⟩,
             device_last_ok := alSet st.device_last_ok (.jstr sn) now },
           (if pyTruthy ((alGet st.devices (.jstr sn)).getD ⟨.jstr name, .jnull, .jnull⟩).online
            then ([] : List Eff)
            else [.notifyCall "Eufy: urządzenie wróciło" (name ++ " online") (some ("rec_" ++ sn)),
                  .incidentAdd (.jstr name) "recovery" (.jstr "Device reachable") (.jstr sn)]) ++
           [.guiDevice (.jstr sn) (.jstr name) (.jbool true)
              ((alGet st.devices (.jstr sn)).getD ⟨.jstr name, .jnull, .jnull⟩).last_event]) := by
  have hsnT : pyTruthy (JVal.jstr sn) = true := by simp [pyTruthy, hsn]
  have hnmT : pyTruthy (JVal.jstr name) = true := by simp [pyTruthy, hname]
  have hflag : ¬ (grace < (0:Int)) := by omega
  simp only [MonitorLogic.handle, updMsg]
  simp only [show ((("event" : String) == "conn")) = false from rfl,
    show ((("event" : String) != "event")) = false from rfl,
    Bool.false_eq_true, if_false,
    show (JVal.jobj [("type", .jstr "device update"), ("device_sn", .jstr sn), ("device_name", .jstr name), ("properties", .jobj [("online", JVal.jbool true)])]).pyGetD "type" (.jstr "") = .ok (.jstr "device update") from rfl,
    except_bind_ok]
  simp only [show pyLower (.jstr "device update") = Except.ok (JVal.jstr "device update") from rfl, except_bind_ok]
  simp only [show pyIn (.jstr "device update") ["devices", "stations"] = false from rfl,
    show pyIn (.jstr "device update") ["device", "device update", "property changed"] = true from rfl,
    Bool.false_eq_true, if_false, if_true]
  simp only [show (JVal.jobj [("type", .jstr "device update"), ("device_sn", .jstr sn), ("device_name", .jstr name), ("properties", .jobj [("online", JVal.jbool true)])]).pyGet "device_sn" = .ok (.jstr sn) from rfl,
    show (JVal.jobj [("type", .jstr "device update"), ("device_sn", .jstr sn), ("device_name", .jstr name), ("properties", .jobj [("online", JVal.jbool true)])]).pyGet "serial_number" = .ok JVal.jnull from rfl,
    show (JVal.jobj [("type", .jstr "device update"), ("device_sn", .jstr sn), ("device_name", .jstr name), ("properties", .jobj [("online", JVal.jbool true)])]).pyGet "device_id" = .ok JVal.jnull from rfl,
    show (JVal.jobj [("type", .jstr "device update"), ("device_sn", .jstr sn), ("device_name", .jstr name), ("properties", .jobj [("online", JVal.jbool true)])]).pyGet "device_name" = .ok (.jstr name) from rfl,
    show (JVal.jobj [("type", .jstr "device update"), ("device_sn", .jstr sn), ("device_name", .jstr name), ("properties", .jobj [("online", JVal.jbool true)])]).pyGet "name" = .ok JVal.jnull from rfl,
    show (JVal.jobj [("type", .jstr "device update"), ("device_sn", .jstr sn), ("device_name", .jstr name), ("properties", .jobj [("online", JVal.jbool true)])]).pyGet "properties" = .ok (.jobj [("online", JVal.jbool true)]) from rfl,
    show (JVal.jobj [("type", .jstr "device update"), ("device_sn", .jstr sn), ("device_name", .jstr name), ("properties", .jobj [("online", JVal.jbool true)])]).pyGet "data" = .ok JVal.jnull from rfl,
    except_bind_ok]
  simp only [pyOr, hsnT, hnmT, if_true,
    show pyTruthy (JVal.jobj [("online", JVal.jbool true)]) = true from rfl]
  simp only [show (JVal.jobj [("online", JVal.jbool true)]).pyGet "online" = .ok (JVal.jbool true) from rfl,
    show (JVal.jobj [("online", JVal.jbool true)]).pyGet "state" = .ok JVal.jnull from rfl,
    except_bind_ok]
  simp only [show ((JVal.jbool true != JVal.jnull)) = true from rfl,
    show pyTruthy (JVal.jbool true) = true from rfl,
    show pyTruthy JVal.jnull = false from rfl,
    Bool.not_false, Bool.and_true, Bool.true_and, if_true,
    IncidentLog.add, Bool.false_eq_true, if_false, except_bind_ok,
    except_ite_bind,
    show (pure : List Eff → Except String (List Eff)) = Except.ok from rfl,
    show (pure : (List Eff × DevRec × LogicState) → Except String (List Eff × DevRec × LogicState)) = Except.ok from rfl,
    show (pure : (LogicState × List Eff) → Except String (LogicState × List Eff)) = Except.ok from rfl]
  simp only [MonitorLogic.maybeFlagOffline, hsnT, Bool.not_true, Bool.false_eq_true, if_false,
    alGet_alSet_self _ _ _ (jstr_beq_self sn), sub_self, hflag, if_true, except_bind_ok]
  cases hpo : pyTruthy ((alGet st.devices (JVal.jstr sn)).getD ⟨.jstr name, .jnull, .jnull⟩).online <;>
    simp [hpo, pyStr]

/-- The staleness check of the GUI logic is disarmed whenever the stored
online field of the device is already the literal `False`: its guard
`dev.get("online") is not False` then fails, so no state change, no effect
and no incident can be produced. -/
theorem MonitorLogic.maybeFlagOffline_alreadyFalse (grace : Int) (sf : Bool) (now : Int)
    (st : LogicState) (sn name : JVal) (hsn : pyTruthy sn = true)
    (d : DevRec) (hdev : alGet st.devices sn = some d) (hof : d.online = .jbool false) :
    MonitorLogic.maybeFlagOffline grace sf now st sn name = .ok (st, []) := by
  simp only [MonitorLogic.maybeFlagOffline, hsn, Bool.not_true, Bool.false_eq_true, if_false]
  cases hlo : alGet st.device_last_ok sn with
  | none => rfl
  | some lastOk =>
    by_cases hcl : grace < now - lastOk
    · simp [hcl, hdev, hof, show (JVal.jbool false == JVal.jbool false) = true from rfl]
    · simp [hcl]

/-- Characterization of the GUI update branch on a `device update` message
whose online property is `false`: the negative hint is written into the
device record (online becomes `False`), `device_last_ok` is untouched, only
a GUI device update is pushed, and the staleness check emits nothing
because the online field it guards on was just set to `False`. -/
theorem MonitorLogic.handle_updFalse (grace now : Int)
    (sn name : String) (hsn : sn ≠ "") (hname : name ≠ "") (st : LogicState) :
    MonitorLogic.handle grace false now st "event" (updMsg sn name (.jbool false)) =
      .ok ({ devices := alSet st.devices (.jstr sn)
               ⟨.jstr name, .jbool false,
                 ((alGet st.devices (.jstr sn)).getD ⟨.jstr name, .jnull, .jnull⟩).last_event⟩,
             device_last_ok := st.device_last_ok },
           [.guiDevice (.jstr sn) (.jstr name) (.jbool false)
              ((alGet st.devices (.jstr sn)).getD ⟨.jstr name, .jnull, .jnull⟩).last_event]) := by
  have hsnT : pyTruthy (JVal.jstr sn) = true := by simp [pyTruthy, hsn]
  have hnmT : pyTruthy (JVal.jstr name) = true := by simp [pyTruthy, hname]
  simp only [MonitorLogic.handle, updMsg]
  simp only [show ((("event" : String) == "conn")) = false from rfl,
    show ((("event" : String) != "event")) = false from rfl,
    Bool.false_eq_true, if_false,
    show (JVal.jobj [("type", .jstr "device update"), ("device_sn", .jstr sn), ("device_name", .jstr name), ("properties", .jobj [("online", JVal.jbool false)])]).pyGetD "type" (.jstr "") = .ok (.jstr "device update") from rfl,
    except_bind_ok]
  simp only [show pyLower (.jstr "device update") = Except.ok (JVal.jstr "device update") from rfl, except_bind_ok]
  simp only [show pyIn (.jstr "device update") ["devices", "stations"] = false from rfl,
    show pyIn (.jstr "device update") ["device", "device update", "property changed"] = true from rfl,
    Bool.false_eq_true, if_false, if_true]
  simp only [show (JVal.jobj [("type", .jstr "device update"), ("device_sn", .jstr sn), ("device_name", .jstr name), ("properties", .jobj [("online", JVal.jbool false)])]).pyGet "device_sn" = .ok (.jstr sn) from rfl,
    show (JVal.jobj [("type", .jstr "device update"), ("device_sn", .jstr sn), ("device_name", .jstr name), ("properties", .jobj [("online", JVal.jbool false)])]).pyGet "serial_number" = .ok JVal.jnull from rfl,
    show (JVal.jobj [("type", .jstr "device update"), ("device_sn", .jstr sn), ("device_name", .jstr name), ("properties", .jobj [("online", JVal.jbool false)])]).pyGet "device_id" = .ok JVal.jnull from rfl,
    show (JVal.jobj [("type", .jstr "device update"), ("device_sn", .jstr sn), ("device_name", .jstr name), ("properties", .jobj [("online", JVal.jbool false)])]).pyGet "device_name" = .ok (.jstr name) from rfl,
    show (JVal.jobj [("type", .jstr "device update"), ("device_sn", .jstr sn), ("device_name", .jstr name), ("properties", .jobj [("online", JVal.jbool false)])]).pyGet "name" = .ok JVal.jnull from rfl,
    show (JVal.jobj [("type", .jstr "device update"), ("device_sn", .jstr sn), ("device_name", .jstr name), ("properties", .jobj [("online", JVal.jbool false)])]).pyGet "properties" = .ok (.jobj [("online", JVal.jbool false)]) from rfl,
    show (JVal.jobj [("type", .jstr "device update"), ("device_sn", .jstr sn), ("device_name", .jstr name), ("properties", .jobj [("online", JVal.jbool false)])]).pyGet "data" = .ok JVal.jnull from rfl,
    except_bind_ok]
  simp only [pyOr, hsnT, hnmT, if_true,
    show pyTruthy (JVal.jobj [("online", JVal.jbool false)]) = true from rfl]
  simp only [show (JVal.jobj [("online", JVal.jbool false)]).pyGet "online" = .ok (JVal.jbool false) from rfl,
    show (JVal.jobj [("online", JVal.jbool false)]).pyGet "state" = .ok JVal.jnull from rfl,
    except_bind_ok]
  simp only [show ((JVal.jbool false != JVal.jnull)) = true from rfl,
    show pyTruthy (JVal.jbool false) = false from rfl,
    Bool.false_and, Bool.false_eq_true, if_false, if_true, except_bind_ok,
    show (pure : List Eff → Except String (List Eff)) = Except.ok from rfl,
    show (pure : (List Eff × DevRec × LogicState) → Except String (List Eff × DevRec × LogicState)) = Except.ok from rfl,
    show (pure : (LogicState × List Eff) → Except String (LogicState × List Eff)) = Except.ok from rfl]
  rw [MonitorLogic.maybeFlagOffline_alreadyFalse grace false now _ (JVal.jstr sn) (JVal.jstr name)
    hsnT ⟨.jstr name, .jbool false, ((alGet st.devices (JVal.jstr sn)).getD ⟨.jstr name, .jnull, .jnull⟩).last_event⟩
    (alGet_alSet_self _ _ _ (jstr_beq_self sn)) rfl]
  simp [pyStr, except_bind_ok]

/-- Characterization of the headless monitor on a `device update` message
whose online property is `false`: the last-known-good map is untouched, and
an offline notification plus incident are emitted exactly when the
staleness (against the stored last-known-good time, defaulting to 24 hours
before `now` for a never-seen serial) exceeds the grace period.  There is
no per-device state and no not-already-offline guard. -/
theorem EufyMonitor.handleEvent_updFalse (grace now : Int)
    (sn name : String) (hsn : sn ≠ "") (hname : name ≠ "") (st : EufyMonitorState) :
    EufyMonitor.handleEvent grace false now st (updMsg sn name (.jbool false)) =
      .ok (st,
        if grace < now - ((alGet st.device_last_ok (.jstr sn)).getD (now - 86400)) then
          [.notifyCall "Eufy: urządzenie offline" (name ++ " nie odpowiada.") (some ("off_" ++ sn)),
           .incidentAdd (.jstr name) "incident" (.jstr "Device offline")
             (.jstr (jsonDumps (.jobj [("online", .jbool false)])))]
        else []) := by
  have hsnT : pyTruthy (JVal.jstr sn) = true := by simp [pyTruthy, hsn]
  have hnmT : pyTruthy (JVal.jstr name) = true := by simp [pyTruthy, hname]
  simp only [EufyMonitor.handleEvent, updMsg]
  simp only [show (JVal.jobj [("type", .jstr "device update"), ("device_sn", .jstr sn), ("device_name", .jstr name), ("properties", .jobj [("online", JVal.jbool false)])]).pyGet "type" = .ok (.jstr "device update") from rfl,
    except_bind_ok]
  simp only [show pyIn (.jstr "device update") ["event", "station event", "device event"] = false from rfl,
    show pyIn (.jstr "device update") ["device", "device update", "property changed"] = true from rfl,
    show pyIn (.jstr "device update") ["error", "station error", "device error"] = false from rfl,
    Bool.false_eq_true, if_false, if_true]
  simp only [show (JVal.jobj [("type", .jstr "device update"), ("device_sn", .jstr sn), ("device_name", .jstr name), ("properties", .jobj [("online", JVal.jbool false)])]).pyGet "device_sn" = .ok (.jstr sn) from rfl,
    show (JVal.jobj [("type", .jstr "device update"), ("device_sn", .jstr sn), ("device_name", .jstr name), ("properties", .jobj [("online", JVal.jbool false)])]).pyGet "serial_number" = .ok JVal.jnull from rfl,
    show (JVal.jobj [("type", .jstr "device update"), ("device_sn", .jstr sn), ("device_name", .jstr name), ("properties", .jobj [("online", JVal.jbool false)])]).pyGet "device_id" = .ok JVal.jnull from rfl,
    show (JVal.jobj [("type", .jstr "device update"), ("device_sn", .jstr sn), ("device_name", .jstr name), ("properties", .jobj [("online", JVal.jbool false)])]).pyGet "device_name" = .ok (.jstr name) from rfl,
    show (JVal.jobj [("type", .jstr "device update"), ("device_sn", .jstr sn), ("device_name", .jstr name), ("properties", .jobj [("online", JVal.jbool false)])]).pyGet "name" = .ok JVal.jnull from rfl,
    show (JVal.jobj [("type", .jstr "device update"), ("device_sn", .jstr sn), ("device_name", .jstr name), ("properties", .jobj [("online", JVal.jbool false)])]).pyGet "properties" = .ok (.jobj [("online", JVal.jbool false)]) from rfl,
    show (JVal.jobj [("type", .jstr "device update"), ("device_sn", .jstr sn), ("device_name", .jstr name), ("properties", .jobj [("online", JVal.jbool false)])]).pyGet "data" = .ok JVal.jnull from rfl,
    except_bind_ok]
  simp only [pyOr, hsnT, hnmT, if_true,
    show pyTruthy (JVal.jobj [("online", JVal.jbool false)]) = true from rfl]
  simp only [show (JVal.jobj [("online", JVal.jbool false)]).pyGet "online" = .ok (JVal.jbool false) from rfl,
    show (JVal.jobj [("online", JVal.jbool false)]).pyGet "state" = .ok JVal.jnull from rfl,
    except_bind_ok]
  simp only [show pyTruthy (JVal.jbool false) = false from rfl,
    Bool.false_eq_true, if_false,
    IncidentLog.add, except_bind_ok,
    show (pure : List Eff → Except String (List Eff)) = Except.ok from rfl,
    show (pure : (EufyMonitorState × List Eff) → Except String (EufyMonitorState × List Eff)) = Except.ok from rfl]
  by_cases hcl : grace < now - ((alGet st.device_last_ok (.jstr sn)).getD (now - 86400)) <;>
    simp [hcl, pyStr, except_bind_ok]

theorem pyIn_sub_false (s : String) (l big : List String)
    (hsub : ∀ k ∈ l, k ∈ big) (h : s ∉ big) : pyIn (.jstr s) l = false := by
  apply pyIn_eq_false_of_ne
  intro k hk he
  injection he with h'
  exact h (h' ▸ hsub k hk)

/-- The eleven message types recognized by the GUI classifier (after
lowercasing), in branch order. -/
def guiTypes : List String :=
  ["devices", "stations", "device", "device update", "property changed",
   "event", "station event", "device event", "error", "station error", "device error"]

/-- A GUI event message whose (lowercased) type matches none of the four
branch lists is a no-op: same state, no effects, normal return. -/
theorem MonitorLogic.handle_unmatchedType (grace : Int) (sf : Bool) (now : Int)
    (st : LogicState) (fs : List (String × JVal)) (s : String)
    (hty : (fs.lookup "type").getD (.jstr "") = .jstr s)
    (hnm : asciiLower s ∉ guiTypes) :
    MonitorLogic.handle grace sf now st "event" (.jobj fs) = .ok (st, []) := by
  have h1 : pyIn (.jstr (asciiLower s)) ["devices", "stations"] = false := by
    apply pyIn_sub_false _ _ guiTypes _ hnm
    intro k hk; fin_cases hk <;> decide
  have h2 : pyIn (.jstr (asciiLower s)) ["device", "device update", "property changed"] = false := by
    apply pyIn_sub_false _ _ guiTypes _ hnm
    intro k hk; fin_cases hk <;> decide
  have h3 : pyIn (.jstr (asciiLower s)) ["event", "station event", "device event"] = false := by
    apply pyIn_sub_false _ _ guiTypes _ hnm
    intro k hk; fin_cases hk <;> decide
  have h4 : pyIn (.jstr (asciiLower s)) ["error", "station error", "device error"] = false := by
    apply pyIn_sub_false _ _ guiTypes _ hnm
    intro k hk; fin_cases hk <;> decide
  simp only [MonitorLogic.handle]
  simp only [show ((("event" : String) == "conn")) = false from rfl,
    show ((("event" : String) != "event")) = false from rfl,
    Bool.false_eq_true, if_false,
    show (JVal.jobj fs).pyGetD "type" (.jstr "") = .ok ((fs.lookup "type").getD (.jstr "")) from rfl,
    except_bind_ok]
  rw [hty]
  simp only [show pyLower (JVal.jstr s) = .ok (.jstr (asciiLower s)) from rfl, except_bind_ok]
  simp only [h1, h2, h3, h4, Bool.false_eq_true, if_false]

/-- The nine message types recognized by the headless monitor (matched
case-sensitively), in branch order. -/
def wsTypes : List String :=
  ["event", "station event", "device event", "device", "device update",
   "property changed", "error", "station error", "device error"]

/-- A headless-monitor event whose raw type value equals none of the nine
recognized strings (this includes any non-string type value) is a no-op:
same state, no effects, normal return. -/
theorem EufyMonitor.handleEvent_unmatchedType (grace : Int) (sf : Bool) (now : Int)
    (st : EufyMonitorState) (fs : List (String × JVal))
    (hnm : ∀ k ∈ wsTypes, (fs.lookup "type").getD JVal.jnull ≠ JVal.jstr k) :
    EufyMonitor.handleEvent grace sf now st (.jobj fs) = .ok (st, []) := by
  have h1 : pyIn ((fs.lookup "type").getD JVal.jnull) ["event", "station event", "device event"] = false := by
    apply pyIn_eq_false_of_ne
    intro k hk; refine hnm k ?_; fin_cases hk <;> decide
  have h2 : pyIn ((fs.lookup "type").getD JVal.jnull) ["device", "device update", "property changed"] = false := by
    apply pyIn_eq_false_of_ne
    intro k hk; refine hnm k ?_; fin_cases hk <;> decide
  have h3 : pyIn ((fs.lookup "type").getD JVal.jnull) ["error", "station error", "device error"] = false := by
    apply pyIn_eq_false_of_ne
    intro k hk; refine hnm k ?_; fin_cases hk <;> decide
  simp only [EufyMonitor.handleEvent]
  simp only [show (JVal.jobj fs).pyGet "type" = .ok ((fs.lookup "type").getD JVal.jnull) from rfl,
    except_bind_ok]
  simp only [h1, h2, h3, Bool.false_eq_true, if_false,
    show (pure : List Eff → Except String (List Eff)) = Except.ok from rfl,
    show (pure : (EufyMonitorState × List Eff) → Except String (EufyMonitorState × List Eff)) = Except.ok from rfl,
    except_bind_ok, List.nil_append]

/-- Whether a transport action is an outbound send. -/
def Act.isSend : Act → Bool
  | .send _ => true
  | _ => false

/-- Whether a transport action is an inbound event put on the GUI queue. -/
def Act.isPutEvent : Act → Bool
  | .putEvent _ => true
  | _ => false

theorem WSClient.listen_putEvent (inbound : List (Option JVal)) :
    ∀ a ∈ WSClient.listen inbound, Act.isPutEvent a = true := by
  induction inbound with
  | nil => intro a ha; cases ha
  | cons hd tl ih =>
    cases hd with
    | none => simpa [WSClient.listen] using ih
    | some evt =>
      intro a ha
      rcases List.mem_cons.mp ha with rfl | ha
      · rfl
      · exact ih a ha

/-- A GUI logic state with one device `S1` named `Cam`, online, last known
good at time 1000. -/
def guiStOnline : LogicState :=
  ⟨[(.jstr "S1", ⟨.jstr "Cam", .jbool true, .jnull⟩)], [(.jstr "S1", 1000)]⟩

/-- A GUI logic state with one device `S1` named `Cam`, offline, last known
good at time 1000. -/
def guiStOffline : LogicState :=
  ⟨[(.jstr "S1", ⟨.jstr "Cam", .jbool false, .jnull⟩)], [(.jstr "S1", 1000)]⟩

/-- A headless-monitor state with serial `S1` last known good at 1000. -/
def wsStSeen : EufyMonitorState := ⟨[(.jstr "S1", 1000)]⟩

/-- A `device update` message without a `properties` object (no online
hint; the heuristic then computes a falsy hint). -/
def updMsgBare (sn name : String) : JVal :=
  .jobj [("type", .jstr "device update"), ("device_sn", .jstr sn), ("device_name", .jstr name)]

/-- An `error` message with a device name and a message text. -/
def errMsg : JVal :=
  .jobj [("type", .jstr "error"), ("device_name", .jstr "Cam"), ("message", .jstr "boom")]

/-- C1: staleness-driven offline detection, evaluated on both programs at
the spec's scenario (grace 60, last known good at T = 1000, update with a
false or absent online hint at T+61 = 1061 and at T+59 = 1059).  The GUI
logic emits no offline Incident and no offline notification at T+61,
because `handle` stores the false hint into `dev["online"]` before calling
`_maybe_flag_offline`, whose guard `dev.get("online") is not False` then
fails; the headless monitor emits exactly one offline Incident and one
offline notification at T+61 and none at T+59, exactly as the claim
demands (though with no per-device state guard). -/
theorem c1_staleness_check_evaluation :
    countOfflineIncidents (runEffs (MonitorLogic.handle 60 false 1061 guiStOnline "event"
      (updMsg "S1" "Cam" (.jbool false)))) = 0
  ∧ countNotifyKey "off_S1" (runEffs (MonitorLogic.handle 60 false 1061 guiStOnline "event"
      (updMsg "S1" "Cam" (.jbool false)))) = 0
  ∧ countOfflineIncidents (runEffs (MonitorLogic.handle 60 false 1061 guiStOnline "event"
      (updMsgBare "S1" "Cam"))) = 0
  ∧ countOfflineIncidents (runEffs (EufyMonitor.handleEvent 60 false 1061 wsStSeen
      (updMsg "S1" "Cam" (.jbool false)))) = 1
  ∧ countNotifyKey "off_S1" (runEffs (EufyMonitor.handleEvent 60 false 1061 wsStSeen
      (updMsg "S1" "Cam" (.jbool false)))) = 1
  ∧ countOfflineIncidents (runEffs (EufyMonitor.handleEvent 60 false 1059 wsStSeen
      (updMsg "S1" "Cam" (.jbool false)))) = 0
  ∧ countOfflineIncidents (runEffs (EufyMonitor.handleEvent 60 false 1061 wsStSeen
      (updMsgBare "S1" "Cam"))) = 1 :=
  ⟨rfl, rfl, rfl, rfl, rfl, rfl, rfl⟩

/-- C4: the alert-gate cooldown of `Notifier.show`.  For a non-empty key:
the first call fires and records the time; a later call fires if and only
if at least the cooldown has elapsed since the recorded time, and the
recorded time is updated exactly on firing calls.  With cooldown 90, calls
at 0 and 50 yield (true, false); calls at 0 and 91 yield (true, true). -/
theorem c4_alert_gate_cooldown (t : Int) (k : String) (hk : k ≠ "") (nt : Notifier) :
    (alGet nt.last k = none →
      nt.show t (some k) = (true, { nt with last := alSet nt.last k t }))
  ∧ (∀ lastT, alGet nt.last k = some lastT →
      (t - lastT < nt.cooldown → nt.show t (some k) = (false, nt))
      ∧ (¬ t - lastT < nt.cooldown →
          nt.show t (some k) = (true, { nt with last := alSet nt.last k t })))
  ∧ ((Notifier.show ⟨90, []⟩ 0 (some "k")).1 = true
      ∧ (((Notifier.show ⟨90, []⟩ 0 (some "k")).2).show 50 (some "k")).1 = false
      ∧ (((Notifier.show ⟨90, []⟩ 0 (some "k")).2).show 91 (some "k")).1 = true) := by
  refine ⟨?_, ?_, rfl, rfl, rfl⟩
  · intro h
    simp [Notifier.show, hk, h]
  · intro lastT h
    constructor <;> intro hc <;> simp [Notifier.show, hk, h, hc]

/-- Witness for C4 at a fresh notifier with cooldown 90, key `k`, time 0. -/
theorem c4_alert_gate_cooldown_witness :
    (alGet (Notifier.last ⟨90, []⟩) "k" = none →
      Notifier.show ⟨90, []⟩ 0 (some "k") = (true, { Notifier.mk 90 [] with last := alSet [] "k" 0 }))
  ∧ (∀ lastT, alGet (Notifier.last ⟨90, []⟩) "k" = some lastT →
      ((0:Int) - lastT < 90 → Notifier.show ⟨90, []⟩ 0 (some "k") = (false, ⟨90, []⟩))
      ∧ (¬ (0:Int) - lastT < 90 →
          Notifier.show ⟨90, []⟩ 0 (some "k") = (true, { Notifier.mk 90 [] with last := alSet [] "k" 0 })))
  ∧ ((Notifier.show ⟨90, []⟩ 0 (some "k")).1 = true
      ∧ (((Notifier.show ⟨90, []⟩ 0 (some "k")).2).show 50 (some "k")).1 = false
      ∧ (((Notifier.show ⟨90, []⟩ 0 (some "k")).2).show 91 (some "k")).1 = true) :=
  c4_alert_gate_cooldown 0 "k" (by decide) ⟨90, []⟩

/-- C5 counterexample: when the incident-persistence append raises, the
headless event handler does not return normally — the exception propagates
out of `handle_event` (the claim asserts it is caught and ignored). -/
theorem c5_counterexample_sink_failure_propagates :
    EufyMonitor.handleEvent 60 true 1000 wsStSeen errMsg = .error "sqlite3.OperationalError" :=
  rfl

/-- C5 amended: notification-delivery failures are swallowed inside
`Notifier.show` (its `try`/`except`), so that call always returns normally
with its usual result; but a failing `IncidentLog.add` is not caught by the
event handlers — it propagates out of both `MonitorLogic.handle` and
`EufyMonitor.handle_event`. -/
theorem c5_amended_sink_failure_handling :
    (∀ (nt : Notifier) (t : Int) (key : Option String) (fail : Bool),
        nt.showDelivering t key fail = .ok (nt.show t key))
  ∧ MonitorLogic.handle 60 true 1000 guiStOnline "event" errMsg = .error "sqlite3.OperationalError"
  ∧ EufyMonitor.handleEvent 60 true 1000 wsStSeen errMsg = .error "sqlite3.OperationalError" := by
  refine ⟨?_, rfl, rfl⟩
  intro nt t key fail
  cases hr : (nt.show t key).1 <;> cases fail <;>
    simp [Notifier.showDelivering, notifyDeliver, hr]

/-- C9: on one successful connection the transport sends exactly the three
handshake commands, in order, as their JSON texts, reports `connected` on
the GUI queue immediately after them, and everything after that prefix is
inbound-event processing only. -/
theorem c9_handshake_order (inbound : List (Option JVal)) :
    (WSClient.connectOnce inbound).take 4 =
      [.send (jsonDumps WSClient.cmdInit), .send (jsonDumps WSClient.cmdGetDevices),
       .send (jsonDumps WSClient.cmdGetStations),
       .putConn (.jobj [("status", .jstr "connected")])]
  ∧ jsonDumps WSClient.cmdInit = "\x7b\"command\": \"initialize\"\x7d"
  ∧ jsonDumps WSClient.cmdGetDevices = "\x7b\"command\": \"get_devices\"\x7d"
  ∧ jsonDumps WSClient.cmdGetStations = "\x7b\"command\": \"get_stations\"\x7d"
  ∧ (WSClient.connectOnce inbound).drop 4 = WSClient.listen inbound
  ∧ (∀ a ∈ (WSClient.connectOnce inbound).drop 4, Act.isPutEvent a = true)
  ∧ (WSClient.connectOnce inbound).countP Act.isSend = 3 := by
  refine ⟨rfl, rfl, rfl, rfl, rfl, ?_, ?_⟩
  · intro a ha
    exact WSClient.listen_putEvent inbound a ha
  · simp only [WSClient.connectOnce, List.countP_cons, Act.isSend]
    have h0 : (WSClient.listen inbound).countP Act.isSend = 0 := by
      rw [List.countP_eq_zero]
      intro a ha
      have := WSClient.listen_putEvent inbound a ha
      cases a <;> simp_all [Act.isSend, Act.isPutEvent]
    simp [h0]

/-- C2: in the GUI logic, a `device update` with online hint `true` for a
device whose stored state is Unknown (absent or `None`) or Offline
(`False`) emits exactly one recovery Incident and one recovery
notification, sets the stored online state to `True` and refreshes the
last-known-good time; a second such update emits no further recovery
Incident and no recovery notification. -/
theorem c2_recovery_exactly_once (grace now now2 : Int) (hg : 0 ≤ grace)
    (sn name : String) (hsn : sn ≠ "") (hname : name ≠ "") (st : LogicState)
    (hprev : alGet st.devices (.jstr sn) = none ∨
      ∃ d, alGet st.devices (.jstr sn) = some d ∧
        (d.online = .jnull ∨ d.online = .jbool false)) :
    ∃ st1 effs,
      MonitorLogic.handle grace false now st "event" (updMsg sn name (.jbool true)) =
        .ok (st1, effs)
      ∧ countRecoveryIncidents effs = 1
      ∧ countNotifyKey ("rec_" ++ sn) effs = 1
      ∧ (alGet st1.devices (.jstr sn)).map DevRec.online = some (.jbool true)
      ∧ alGet st1.device_last_ok (.jstr sn) = some now
      ∧ ∀ st2 effs2,
          MonitorLogic.handle grace false now2 st1 "event" (updMsg sn name (.jbool true)) =
            .ok (st2, effs2) →
          countRecoveryIncidents effs2 = 0 ∧ countNotifyKey ("rec_" ++ sn) effs2 = 0 := by
  have hpo : pyTruthy ((alGet st.devices (.jstr sn)).getD ⟨.jstr name, .jnull, .jnull⟩).online = false := by
    rcases hprev with h | ⟨d, hd, hdo⟩
    · simp [h, pyTruthy]
    · rcases hdo with h2 | h2 <;> simp [hd, h2, pyTruthy]
  refine ⟨_, _, MonitorLogic.handle_updTrue grace now hg sn name hsn hname st, ?_, ?_, ?_, ?_, ?_⟩
  · simp [hpo, countRecoveryIncidents, List.filter]
  · simp [hpo, countNotifyKey, List.filter]
  · simp [alGet_alSet_self _ _ _ (jstr_beq_self sn)]
  · exact alGet_alSet_self _ _ _ (jstr_beq_self sn)
  · intro st2 effs2 h2
    have hpo2 : pyTruthy ((alGet
        (alSet st.devices (.jstr sn)
          ⟨.jstr name, .jbool true,
            ((alGet st.devices (.jstr sn)).getD ⟨.jstr name, .jnull, .jnull⟩).last_event⟩)
        (.jstr sn)).getD ⟨.jstr name, .jnull, .jnull⟩).online = true := by
      simp [alGet_alSet_self _ _ _ (jstr_beq_self sn), pyTruthy]
    rw [MonitorLogic.handle_updTrue grace now2 hg sn name hsn hname _] at h2
    rw [Except.ok.injEq, Prod.mk.injEq] at h2
    obtain ⟨-, heff⟩ := h2
    subst heff
    constructor
    · simp [hpo2, countRecoveryIncidents, List.filter]
    · simp [hpo2, countNotifyKey, List.filter]

/-- Witness for C2: grace 60, device `S1` offline since 1000, recovery
update at 2000, repeated at 2010. -/
theorem c2_recovery_exactly_once_witness :
    ∃ st1 effs,
      MonitorLogic.handle 60 false 2000 guiStOffline "event" (updMsg "S1" "Cam" (.jbool true)) =
        .ok (st1, effs)
      ∧ countRecoveryIncidents effs = 1
      ∧ countNotifyKey ("rec_" ++ "S1") effs = 1
      ∧ (alGet st1.devices (.jstr "S1")).map DevRec.online = some (.jbool true)
      ∧ alGet st1.device_last_ok (.jstr "S1") = some 2000
      ∧ ∀ st2 effs2,
          MonitorLogic.handle 60 false 2010 st1 "event" (updMsg "S1" "Cam" (.jbool true)) =
            .ok (st2, effs2) →
          countRecoveryIncidents effs2 = 0 ∧ countNotifyKey ("rec_" ++ "S1") effs2 = 0 :=
  c2_recovery_exactly_once 60 2000 2010 (by decide) "S1" "Cam" (by decide) (by decide)
    guiStOffline (Or.inr ⟨⟨.jstr "Cam", .jbool false, .jnull⟩, rfl, Or.inr rfl⟩)

/-- C3 counterexample: with grace 60 and the device last known good at
1000, a `device update` with a false online hint at time 1010 (grace not
elapsed) changes the stored online state of `S1` from `True` to `False` —
the claim asserts the state stays unchanged. -/
theorem c3_counterexample_false_hint_changes_state :
    (alGet guiStOnline.devices (.jstr "S1")).map DevRec.online = some (.jbool true)
  ∧ (alGet (runState ⟨[], []⟩ (MonitorLogic.handle 60 false 1010 guiStOnline "event"
      (updMsg "S1" "Cam" (.jbool false)))).devices (.jstr "S1")).map DevRec.online =
      some (.jbool false) :=
  ⟨rfl, rfl⟩

/-- C3 amended: a `device update` with a false online hint immediately
records `False` into the device's stored online state (for any prior
state and any staleness), leaves the last-known-good map untouched, and by
itself emits no Incident and no notification: the only effect is the GUI
device-row update.  Offline Incident emission stays with the staleness
check. -/
theorem c3_amended_false_hint_records_offline (grace now : Int)
    (sn name : String) (hsn : sn ≠ "") (hname : name ≠ "") (st : LogicState) :
    ∃ st1 effs,
      MonitorLogic.handle grace false now st "event" (updMsg sn name (.jbool false)) =
        .ok (st1, effs)
      ∧ (alGet st1.devices (.jstr sn)).map DevRec.online = some (.jbool false)
      ∧ st1.device_last_ok = st.device_last_ok
      ∧ countIncidentAdds effs = 0
      ∧ countNotifyCalls effs = 0 := by
  refine ⟨_, _, MonitorLogic.handle_updFalse grace now sn name hsn hname st, ?_, rfl, rfl, rfl⟩
  simp [alGet_alSet_self _ _ _ (jstr_beq_self sn)]

/-- Witness for the amended C3 at grace 60, time 1010, device `S1`. -/
theorem c3_amended_false_hint_records_offline_witness :
    ∃ st1 effs,
      MonitorLogic.handle 60 false 1010 guiStOnline "event" (updMsg "S1" "Cam" (.jbool false)) =
        .ok (st1, effs)
      ∧ (alGet st1.devices (.jstr "S1")).map DevRec.online = some (.jbool false)
      ∧ st1.device_last_ok = guiStOnline.device_last_ok
      ∧ countIncidentAdds effs = 0
      ∧ countNotifyCalls effs = 0 :=
  c3_amended_false_hint_records_offline 60 1010 "S1" "Cam" (by decide) (by decide) guiStOnline

/-- C10: in the headless monitor, a `device update` with a false online
hint for a serial with no recorded last-known-good time is treated as last
seen 24 hours (86400 s) ago, so whenever the grace period is below 86400
seconds the very first such update immediately emits one offline Incident
and one offline notification. -/
theorem c10_never_seen_defaults_to_24h (grace now : Int) (hgr : grace < 86400)
    (sn name : String) (hsn : sn ≠ "") (hname : name ≠ "") (st : EufyMonitorState)
    (hnone : alGet st.device_last_ok (.jstr sn) = none) :
    ∃ effs,
      EufyMonitor.handleEvent grace false now st (updMsg sn name (.jbool false)) =
        .ok (st, effs)
      ∧ countOfflineIncidents effs = 1
      ∧ countNotifyKey ("off_" ++ sn) effs = 1 := by
  have h24 : now - (now - 86400) = (86400 : Int) := by ring
  have hcl : grace < now - ((alGet st.device_last_ok (.jstr sn)).getD (now - 86400)) := by
    rw [hnone, Option.getD_none, h24]; exact hgr
  refine ⟨_, EufyMonitor.handleEvent_updFalse grace now sn name hsn hname st, ?_, ?_⟩
  · simp [hcl, countOfflineIncidents, List.filter,
      show (JVal.jstr "Device offline" == JVal.jstr "Device offline") = true from rfl]
  · simp [hcl, countNotifyKey, List.filter]

/-- Witness for C10: grace 60, never-seen serial `N1` at time 1000. -/
theorem c10_never_seen_defaults_to_24h_witness :
    ∃ effs,
      EufyMonitor.handleEvent 60 false 1000 ⟨[]⟩ (updMsg "N1" "New" (.jbool false)) =
        .ok (⟨[]⟩, effs)
      ∧ countOfflineIncidents effs = 1
      ∧ countNotifyKey ("off_" ++ "N1") effs = 1 :=
  c10_never_seen_defaults_to_24h 60 1000 (by decide) "N1" "New" (by decide) (by decide) ⟨[]⟩ rfl

/-- C6 counterexample: a message whose `type` field holds a non-string
value makes the GUI handler raise (`evt.get("type","").lower()` is an
`AttributeError` on a non-string) — the claim asserts no error is ever
raised for messages without a usable type. -/
theorem c6_counterexample_nonstring_type_raises :
    MonitorLogic.handle 60 false 0 guiStOnline "event" (.jobj [("type", .jnum 5)]) =
      .error "AttributeError" :=
  rfl

/-- C6 amended: a message whose `type` is absent or a string that does not
lowercase to a recognized kind is discarded by the GUI logic with no state
change, no effects and no error; the headless monitor likewise discards
any message whose raw `type` value is not one of its recognized strings
(including non-string values).  Only a present non-string `type` in the GUI
logic raises. -/
theorem c6_amended_unrecognized_discarded (grace : Int) (sf : Bool) (now : Int)
    (stG : LogicState) (stW : EufyMonitorState) (fs gs : List (String × JVal)) (s : String)
    (hty : (fs.lookup "type").getD (.jstr "") = .jstr s)
    (hnm : asciiLower s ∉ guiTypes)
    (hws : ∀ k ∈ wsTypes, (gs.lookup "type").getD JVal.jnull ≠ JVal.jstr k) :
    MonitorLogic.handle grace sf now stG "event" (.jobj fs) = .ok (stG, [])
  ∧ EufyMonitor.handleEvent grace sf now stW (.jobj gs) = .ok (stW, []) :=
  ⟨MonitorLogic.handle_unmatchedType grace sf now stG fs s hty hnm,
   EufyMonitor.handleEvent_unmatchedType grace sf now stW gs hws⟩

/-- Witness for the amended C6 at the spec's `heartbeat` message. -/
theorem c6_amended_unrecognized_discarded_witness :
    MonitorLogic.handle 60 false 0 guiStOnline "event" (.jobj [("type", .jstr "heartbeat")]) =
      .ok (guiStOnline, [])
  ∧ EufyMonitor.handleEvent 60 false 0 wsStSeen (.jobj [("type", .jstr "heartbeat")]) =
      .ok (wsStSeen, []) :=
  c6_amended_unrecognized_discarded 60 false 0 guiStOnline wsStSeen
    [("type", .jstr "heartbeat")] [("type", .jstr "heartbeat")] "heartbeat" rfl (by decide)
    (by
      intro k hk
      fin_cases hk <;> (intro he; injection he with h; exact absurd h (by decide)))

/-- An update message carrying both `serial_number` (`A`) and `device_sn`
(`B`). -/
def msgBothSerials : JVal :=
  .jobj [("type", .jstr "device update"), ("serial_number", .jstr "A"),
         ("device_sn", .jstr "B"), ("properties", .jobj [("online", .jbool true)])]

/-- An update message carrying only `station_sn`. -/
def msgStationOnly : JVal :=
  .jobj [("type", .jstr "device update"), ("station_sn", .jstr "C")]

/-- C7 counterexample: for an update message carrying both `serial_number`
(`A`) and `device_sn` (`B`), both handlers key the device under `B`
(`device_sn` wins, contrary to the claimed `serial_number` precedence),
and an update carrying only `station_sn` yields no serial at all (the
update fallbacks never read `station_sn`), leaving the state unchanged. -/
theorem c7_counterexample_update_serial_precedence :
    alGet (runState ⟨[], []⟩ (MonitorLogic.handle 60 false 0 ⟨[], []⟩ "event"
      msgBothSerials)).devices (.jstr "A") = none
  ∧ (alGet (runState ⟨[], []⟩ (MonitorLogic.handle 60 false 0 ⟨[], []⟩ "event"
      msgBothSerials)).devices (.jstr "B")).isSome = true
  ∧ MonitorLogic.handle 60 false 0 ⟨[], []⟩ "event" msgStationOnly = .ok (⟨[], []⟩, [])
  ∧ alGet (runState ⟨[]⟩ (EufyMonitor.handleEvent 60 false 0 ⟨[]⟩
      msgBothSerials)).device_last_ok (.jstr "A") = none
  ∧ (alGet (runState ⟨[]⟩ (EufyMonitor.handleEvent 60 false 0 ⟨[]⟩
      msgBothSerials)).device_last_ok (.jstr "B")).isSome = true :=
  ⟨rfl, rfl, rfl, rfl, rfl⟩

/-- Characterization of the GUI update branch on a message carrying both
`serial_number` (value `a`) and `device_sn` (value `b`): the serial used
for the device map, the last-known-good map, the notification key and the
incident details is `b` — the `device_sn` fallback is consulted first and
`serial_number` is ignored (the name also falls back to `b`). -/
theorem MonitorLogic.handle_updBoth (grace now : Int) (hg : 0 ≤ grace) (a b : String)
    (hb : b ≠ "") (st : LogicState) :
    MonitorLogic.handle grace false now st "event"
      (.jobj [("type", .jstr "device update"), ("serial_number", .jstr a),
              ("device_sn", .jstr b), ("properties", .jobj [("online", .jbool true)])]) =
      .ok ({ devices := alSet st.devices (.jstr b)
               ⟨.jstr b, .jbool true,
                 ((alGet st.devices (.jstr b)).getD ⟨.jstr b, .jnull, .jnull⟩).last_event⟩,
             device_last_ok := alSet st.device_last_ok (.jstr b) now },
           (if pyTruthy ((alGet st.devices (.jstr b)).getD ⟨.jstr b, .jnull, .jnull⟩).online
            then ([] : List Eff)
            else [.notifyCall "Eufy: urządzenie wróciło" (b ++ " online") (some ("rec_" ++ b)),
                  .incidentAdd (.jstr b) "recovery" (.jstr "Device reachable") (.jstr b)]) ++
           [.guiDevice (.jstr b) (.jstr b) (.jbool true)
              ((alGet st.devices (.jstr b)).getD ⟨.jstr b, .jnull, .jnull⟩).last_event]) := by
  have hbT : pyTruthy (JVal.jstr b) = true := by simp [pyTruthy, hb]
  have hflag : ¬ (grace < (0:Int)) := by omega
  simp only [MonitorLogic.handle]
  simp only [show ((("event" : String) == "conn")) = false from rfl,
    show ((("event" : String) != "event")) = false from rfl,
    Bool.false_eq_true, if_false,
    show (JVal.jobj [("type", .jstr "device update"), ("serial_number", .jstr a), ("device_sn", .jstr b), ("properties", .jobj [("online", JVal.jbool true)])]).pyGetD "type" (.jstr "") = .ok (.jstr "device update") from rfl,
    except_bind_ok]
  simp only [show pyLower (.jstr "device update") = Except.ok (JVal.jstr "device update") from rfl, except_bind_ok]
  simp only [show pyIn (.jstr "device update") ["devices", "stations"] = false from rfl,
    show pyIn (.jstr "device update") ["device", "device update", "property changed"] = true from rfl,
    Bool.false_eq_true, if_false, if_true]
  simp only [show (JVal.jobj [("type", .jstr "device update"), ("serial_number", .jstr a), ("device_sn", .jstr b), ("properties", .jobj [("online", JVal.jbool true)])]).pyGet "device_sn" = .ok (.jstr b) from rfl,
    show (JVal.jobj [("type", .jstr "device update"), ("serial_number", .jstr a), ("device_sn", .jstr b), ("properties", .jobj [("online", JVal.jbool true)])]).pyGet "serial_number" = .ok (.jstr a) from rfl,
    show (JVal.jobj [("type", .jstr "device update"), ("serial_number", .jstr a), ("device_sn", .jstr b), ("properties", .jobj [("online", JVal.jbool true)])]).pyGet "device_id" = .ok JVal.jnull from rfl,
    show (JVal.jobj [("type", .jstr "device update"), ("serial_number", .jstr a), ("device_sn", .jstr b), ("properties", .jobj [("online", JVal.jbool true)])]).pyGet "device_name" = .ok JVal.jnull from rfl,
    show (JVal.jobj [("type", .jstr "device update"), ("serial_number", .jstr a), ("device_sn", .jstr b), ("properties", .jobj [("online", JVal.jbool true)])]).pyGet "name" = .ok JVal.jnull from rfl,
    show (JVal.jobj [("type", .jstr "device update"), ("serial_number", .jstr a), ("device_sn", .jstr b), ("properties", .jobj [("online", JVal.jbool true)])]).pyGet "properties" = .ok (.jobj [("online", JVal.jbool true)]) from rfl,
    show (JVal.jobj [("type", .jstr "device update"), ("serial_number", .jstr a), ("device_sn", .jstr b), ("properties", .jobj [("online", JVal.jbool true)])]).pyGet "data" = .ok JVal.jnull from rfl,
    except_bind_ok]
  simp only [pyOr, hbT, if_true,
    show pyTruthy JVal.jnull = false from rfl, Bool.false_eq_true, if_false,
    show pyTruthy (JVal.jobj [("online", JVal.jbool true)]) = true from rfl]
  simp only [show (JVal.jobj [("online", JVal.jbool true)]).pyGet "online" = .ok (JVal.jbool true) from rfl,
    show (JVal.jobj [("online", JVal.jbool true)]).pyGet "state" = .ok JVal.jnull from rfl,
    except_bind_ok]
  simp only [show ((JVal.jbool true != JVal.jnull)) = true from rfl,
    show pyTruthy (JVal.jbool true) = true from rfl,
    show pyTruthy JVal.jnull = false from rfl,
    Bool.not_false, Bool.and_true, Bool.true_and, if_true,
    IncidentLog.add, Bool.false_eq_true, if_false, except_bind_ok,
    except_ite_bind,
    show (pure : List Eff → Except String (List Eff)) = Except.ok from rfl,
    show (pure : (List Eff × DevRec × LogicState) → Except String (List Eff × DevRec × LogicState)) = Except.ok from rfl,
    show (pure : (LogicState × List Eff) → Except String (LogicState × List Eff)) = Except.ok from rfl]
  simp only [MonitorLogic.maybeFlagOffline, hbT, Bool.not_true, Bool.false_eq_true, if_false,
    alGet_alSet_self _ _ _ (jstr_beq_self b), sub_self, hflag, if_true, except_bind_ok]
  cases hpo : pyTruthy ((alGet st.devices (JVal.jstr b)).getD ⟨.jstr b, .jnull, .jnull⟩).online <;>
    simp [hpo, pyStr]

/-- Characterization of the GUI snapshot branch on a one-element `devices`
message carrying both `serial_number` (value `a`) and `device_sn` (value
`b`): the device is keyed under `a` — for snapshots the `serial_number`
fallback is consulted first. -/
theorem MonitorLogic.handle_snapBoth (grace : Int) (sf : Bool) (now : Int)
    (a b nm : String) (ha : a ≠ "") (hnm : nm ≠ "") (st : LogicState) :
    MonitorLogic.handle grace sf now st "event"
      (.jobj [("type", .jstr "devices"),
              ("data", .jarr [.jobj [("serial_number", .jstr a), ("device_sn", .jstr b),
                ("name", .jstr nm), ("online", .jbool true)]])]) =
      .ok ({ devices := alSet st.devices (.jstr a) ⟨.jstr nm, .jbool true, .jnull⟩,
             device_last_ok := alSet st.device_last_ok (.jstr a) now },
           [.guiDevice (.jstr a) (.jstr nm) (.jbool true) .jnull]) := by
  have haT : pyTruthy (JVal.jstr a) = true := by simp [pyTruthy, ha]
  have hnmT : pyTruthy (JVal.jstr nm) = true := by simp [pyTruthy, hnm]
  simp only [MonitorLogic.handle]
  simp only [show ((("event" : String) == "conn")) = false from rfl,
    show ((("event" : String) != "event")) = false from rfl,
    Bool.false_eq_true, if_false,
    show (JVal.jobj [("type", .jstr "devices"), ("data", .jarr [.jobj [("serial_number", .jstr a), ("device_sn", .jstr b), ("name", .jstr nm), ("online", JVal.jbool true)]])]).pyGetD "type" (.jstr "") = .ok (.jstr "devices") from rfl,
    except_bind_ok]
  simp only [show pyLower (.jstr "devices") = Except.ok (JVal.jstr "devices") from rfl, except_bind_ok]
  simp only [show pyIn (.jstr "devices") ["devices", "stations"] = true from rfl, if_true]
  simp only [show (JVal.jobj [("type", .jstr "devices"), ("data", .jarr [.jobj [("serial_number", .jstr a), ("device_sn", .jstr b), ("name", .jstr nm), ("online", JVal.jbool true)]])]).pyGet "data" = .ok (.jarr [.jobj [("serial_number", .jstr a), ("device_sn", .jstr b), ("name", .jstr nm), ("online", JVal.jbool true)]]) from rfl,
    except_bind_ok]
  simp only [pyOr, show pyTruthy (JVal.jarr [JVal.jobj [("serial_number", .jstr a), ("device_sn", .jstr b), ("name", .jstr nm), ("online", JVal.jbool true)]]) = true from rfl,
    if_true,
    show pyIter (JVal.jarr [JVal.jobj [("serial_number", .jstr a), ("device_sn", .jstr b), ("name", .jstr nm), ("online", JVal.jbool true)]]) = .ok [JVal.jobj [("serial_number", .jstr a), ("device_sn", .jstr b), ("name", .jstr nm), ("online", JVal.jbool true)]] from rfl,
    except_bind_ok]
  simp only [MonitorLogic.snapshotFold,
    show (JVal.jobj [("serial_number", .jstr a), ("device_sn", .jstr b), ("name", .jstr nm), ("online", JVal.jbool true)]).pyGet "serial_number" = .ok (.jstr a) from rfl,
    show (JVal.jobj [("serial_number", .jstr a), ("device_sn", .jstr b), ("name", .jstr nm), ("online", JVal.jbool true)]).pyGet "device_sn" = .ok (.jstr b) from rfl,
    show (JVal.jobj [("serial_number", .jstr a), ("device_sn", .jstr b), ("name", .jstr nm), ("online", JVal.jbool true)]).pyGet "station_sn" = .ok JVal.jnull from rfl,
    show (JVal.jobj [("serial_number", .jstr a), ("device_sn", .jstr b), ("name", .jstr nm), ("online", JVal.jbool true)]).pyGet "name" = .ok (.jstr nm) from rfl,
    show (JVal.jobj [("serial_number", .jstr a), ("device_sn", .jstr b), ("name", .jstr nm), ("online", JVal.jbool true)]).pyGet "device_name" = .ok JVal.jnull from rfl,
    show (JVal.jobj [("serial_number", .jstr a), ("device_sn", .jstr b), ("name", .jstr nm), ("online", JVal.jbool true)]).pyGet "station_name" = .ok JVal.jnull from rfl,
    show (JVal.jobj [("serial_number", .jstr a), ("device_sn", .jstr b), ("name", .jstr nm), ("online", JVal.jbool true)]).pyGet "state" = .ok JVal.jnull from rfl,
    show (JVal.jobj [("serial_number", .jstr a), ("device_sn", .jstr b), ("name", .jstr nm), ("online", JVal.jbool true)]).pyGet "online" = .ok (JVal.jbool true) from rfl,
    except_bind_ok]
  simp only [pyOr, haT, hnmT, if_true,
    show pyIn JVal.jnull ["online", "connected"] = false from rfl,
    show pyTruthy (JVal.jbool true) = true from rfl,
    Bool.false_or, if_true, except_bind_ok,
    show (pure : (LogicState × List Eff) → Except String (LogicState × List Eff)) = Except.ok from rfl]

/-- C7 amended: serial extraction differs between branches.  For update
messages the ordered fallbacks are `device_sn`, then `serial_number`, then
`device_id` — so with both `serial_number` (`a`) and `device_sn` (`b`)
present the device is keyed under `b` and nothing is written under `a`; an
update carrying only `station_sn` yields no serial and is a state no-op.
For snapshot entries the fallbacks are `serial_number`, then `device_sn`,
then `station_sn` — with both present the device is keyed under `a`. -/
theorem c7_amended_fallback_order (grace now : Int) (hg : 0 ≤ grace)
    (a b nm : String) (ha : a ≠ "") (hb : b ≠ "") (hnm : nm ≠ "") (hab : a ≠ b)
    (st : LogicState) :
    (∃ st1 effs,
        MonitorLogic.handle grace false now st "event"
          (.jobj [("type", .jstr "device update"), ("serial_number", .jstr a),
                  ("device_sn", .jstr b), ("properties", .jobj [("online", .jbool true)])]) =
          .ok (st1, effs)
        ∧ (alGet st1.devices (.jstr b)).isSome = true
        ∧ alGet st1.devices (.jstr a) = alGet st.devices (.jstr a))
  ∧ (∃ st1 effs,
        MonitorLogic.handle grace false now st "event"
          (.jobj [("type", .jstr "devices"),
                  ("data", .jarr [.jobj [("serial_number", .jstr a), ("device_sn", .jstr b),
                    ("name", .jstr nm), ("online", .jbool true)]])]) =
          .ok (st1, effs)
        ∧ (alGet st1.devices (.jstr a)).isSome = true
        ∧ alGet st1.devices (.jstr b) = alGet st.devices (.jstr b))
  ∧ MonitorLogic.handle grace false now st "event" msgStationOnly = .ok (st, []) := by
  have hba : ∀ x, (x == JVal.jstr b) = true → (x == JVal.jstr a) = false := by
    intro x hx
    rw [beq_jstr_iff] at hx
    subst hx
    rw [jstr_beq_eq]
    exact beq_eq_false_iff_ne.mpr (Ne.symm hab)
  have hab' : ∀ x, (x == JVal.jstr a) = true → (x == JVal.jstr b) = false := by
    intro x hx
    rw [beq_jstr_iff] at hx
    subst hx
    rw [jstr_beq_eq]
    exact beq_eq_false_iff_ne.mpr hab
  refine ⟨⟨_, _, MonitorLogic.handle_updBoth grace now hg a b hb st, ?_, ?_⟩,
          ⟨_, _, MonitorLogic.handle_snapBoth grace false now a b nm ha hnm st, ?_, ?_⟩, rfl⟩
  · simp [alGet_alSet_self _ _ _ (jstr_beq_self b)]
  · exact alGet_alSet_ne _ _ _ _ (jstr_beq_self b) hba
  · simp [alGet_alSet_self _ _ _ (jstr_beq_self a)]
  · exact alGet_alSet_ne _ _ _ _ (jstr_beq_self a) hab'

/-- Witness for the amended C7 with serials `A`, `B`, name `Cam`, grace 60,
time 0, from the empty state. -/
theorem c7_amended_fallback_order_witness :
    (∃ st1 effs,
        MonitorLogic.handle 60 false 0 ⟨[], []⟩ "event"
          (.jobj [("type", .jstr "device update"), ("serial_number", .jstr "A"),
                  ("device_sn", .jstr "B"), ("properties", .jobj [("online", .jbool true)])]) =
          .ok (st1, effs)
        ∧ (alGet st1.devices (.jstr "B")).isSome = true
        ∧ alGet st1.devices (.jstr "A") = alGet (LogicState.mk [] []).devices (.jstr "A"))
  ∧ (∃ st1 effs,
        MonitorLogic.handle 60 false 0 ⟨[], []⟩ "event"
          (.jobj [("type", .jstr "devices"),
                  ("data", .jarr [.jobj [("serial_number", .jstr "A"), ("device_sn", .jstr "B"),
                    ("name", .jstr "Cam"), ("online", .jbool true)]])]) =
          .ok (st1, effs)
        ∧ (alGet st1.devices (.jstr "A")).isSome = true
        ∧ alGet st1.devices (.jstr "B") = alGet (LogicState.mk [] []).devices (.jstr "B"))
  ∧ MonitorLogic.handle 60 false 0 ⟨[], []⟩ "event" msgStationOnly = .ok (⟨[], []⟩, []) :=
  c7_amended_fallback_order 60 0 (by decide) "A" "B" "Cam"
    (by decide) (by decide) (by decide) (by decide) ⟨[], []⟩

/-- An alert-kind message (`event` family) with the given raw type. -/
def evtMsgOfType (ty : String) : JVal :=
  .jobj [("type", .jstr ty), ("device_name", .jstr "Cam"),
         ("event_type", .jstr "motion"), ("message", .jstr "m")]

/-- An update-kind message with the given raw type. -/
def updMsgOfType (ty : String) : JVal :=
  .jobj [("type", .jstr ty), ("device_sn", .jstr "S1"), ("device_name", .jstr "Cam"),
         ("properties", .jobj [("online", .jbool true)])]

/-- C8 counterexample: the headless monitor compares the `type` field
case-sensitively, so `{"type":"EVENT"}` produces no effects while the
lowercase form produces the alert notification and incident — contrary to
the claim that any case variant classifies like its lowercase form. -/
theorem c8_counterexample_ws_case_sensitive :
    (runEffs (EufyMonitor.handleEvent 60 false 0 wsStSeen (evtMsgOfType "EVENT"))).length = 0
  ∧ (runEffs (EufyMonitor.handleEvent 60 false 0 wsStSeen (evtMsgOfType "event"))).length = 2 :=
  ⟨rfl, rfl⟩

/-- C8 amended: only the GUI logic reads the type case-insensitively — it
lowercases the field before matching, so `Device Update` and `EVENT`
behave exactly like their lowercase forms; the headless monitor matches
the raw value against lowercase names, so a non-lowercase type is
silently discarded there. -/
theorem c8_amended_case_handling :
    MonitorLogic.handle 60 false 0 guiStOffline "event" (updMsgOfType "Device Update")
      = MonitorLogic.handle 60 false 0 guiStOffline "event" (updMsgOfType "device update")
  ∧ MonitorLogic.handle 60 false 0 guiStOnline "event" (evtMsgOfType "EVENT")
      = MonitorLogic.handle 60 false 0 guiStOnline "event" (evtMsgOfType "event")
  ∧ (runEffs (MonitorLogic.handle 60 false 0 guiStOffline "event"
      (updMsgOfType "Device Update"))).length = 3
  ∧ EufyMonitor.handleEvent 60 false 0 wsStSeen (evtMsgOfType "EVENT") = .ok (wsStSeen, [])
  ∧ EufyMonitor.handleEvent 60 false 0 wsStSeen (updMsgOfType "Property Changed")
      = .ok (wsStSeen, [])
  ∧ (runEffs (EufyMonitor.handleEvent 60 false 0 wsStSeen (evtMsgOfType "event"))).length = 2 :=
  ⟨rfl, rfl, rfl, rfl, rfl, rfl⟩
